import Mathlib

/-!
Shallow embedding of the CSV-to-RDS ingestion Lambda
(`src/MyDataBucket1/lambda_stepfunction.py`).

External collaborators (S3, Secrets Manager, the RDS API, the MySQL
connection, Step Functions) are modelled as oracles carried in an `Env`
record; the pure control flow, the per-row validation and cleaning, the
batch-commit placement, the size guard of the Step Functions input, the
error-message truncation and the per-file status policy are translated
from the source.  Statements issued on the database cursor are recorded
as `DbEvent`s and file-level effects as `Effect`s so that frame
properties (what is, and is not, touched) can be stated.
-/

/-- The double-quote character stripped from column names and cell values. -/
def dquote : Char := Char.ofNat 34

/-- The single-quote character stripped from column names and cell values. -/
def squote : Char := Char.ofNat 39

/-- The backtick character stripped from column names. -/
def btick : Char := Char.ofNat 96

/-- Python slice `s[:n]`: the first `n` characters of a string. -/
def py_slice (s : String) (n : Nat) : String := String.mk (s.toList.take n)

/-- Python `s.replace(c, '')` for a one-character needle: every
occurrence of the character is removed (each `replace` call in the
source replaces a single quote character with the empty string). -/
def py_remove (c : Char) (s : String) : String :=
  String.mk (s.toList.filter (fun a => a != c))

/-- Python `s.strip()`: drop the whitespace at both ends. -/
def py_strip (s : String) : String :=
  String.mk (((s.toList.dropWhile Char.isWhitespace).reverse.dropWhile
    Char.isWhitespace).reverse)

/-- Python `s.lower()` (ASCII content): lower-case each character. -/
def py_lower (s : String) : String := String.mk (s.toList.map Char.toLower)

/-- Python `s.endswith(t)`. -/
def py_endswith (s t : String) : Bool := t.toList.isSuffixOf s.toList

/-- Python `s.split(sep)[-1]`: the segment after the last separator
(the whole string when the separator does not occur). -/
def py_split_tail (sep : Char) (s : String) : String :=
  String.mk (s.toList.foldl (fun acc c => if c = sep then [] else acc ++ [c]) [])

/-- Column-name cleaning of `create_table_if_not_exists` and
`insert_csv_data`: `col.replace('"', '').replace("'", "").replace('`', '')`. -/
def clean_col (col : String) : String :=
  py_remove btick (py_remove squote (py_remove dquote col))

/-- Cell cleaning of the row loop of `insert_csv_data`:
`cell.strip().replace('"', '').replace("'", "")`. -/
def clean_cell (cell : String) : String :=
  py_remove squote (py_remove dquote (py_strip cell))

/-- A JSON value as the Step Functions input dict uses them: the payload
built by the handler holds strings, non-negative integers and booleans. -/
inductive JVal where
  | str (s : String)
  | nat (n : Nat)
  | bool (b : Bool)
  deriving DecidableEq

/-- Serialized length of one value under Python `json.dumps` defaults
(ASCII content assumed): a string is wrapped in two quotes, a number
prints in decimal, a boolean prints as `true` or `false`. -/
def jvalLen : JVal → Nat
  | JVal.str s => s.length + 2
  | JVal.nat n => (toString n).length
  | JVal.bool b => if b then 4 else 5

/-- Serialized length of a JSON object under `json.dumps` defaults: the
two braces, `"key": value` for each entry, and a comma plus space between
consecutive entries. -/
def jsonLen (p : List (String × JVal)) : Nat :=
  2 + (p.map (fun kv => kv.1.length + 4 + jvalLen kv.2)).sum +
    (if p.length ≤ 1 then 0 else 2 * (p.length - 1))

/-- The size guard of `trigger_step_functions` (lines 150–157): serialize
the input; when the size exceeds `250 * 1024` bytes, assign
`input_data['large_data_warning'] = True` and
`input_data['original_size'] = len(input_json)` (two new dict entries,
appended in insertion order) and re-serialize.  No existing field is
removed or replaced. -/
def adjust_input_data (input_data : List (String × JVal)) : List (String × JVal) :=
  if 250 * 1024 < jsonLen input_data then
    input_data ++ [("large_data_warning", JVal.bool true),
                   ("original_size", JVal.nat (jsonLen input_data))]
  else input_data

/-- The `start_execution` call of `trigger_step_functions`: the state
machine ARN, the (possibly adjusted) input object and the execution name
cut to 80 characters. -/
inductive SfnEvent where
  | startExecution (arn : String) (input : List (String × JVal)) (name : String)
  deriving DecidableEq

/-- `trigger_step_functions` (lines 145–170): run the size guard, call
`start_execution` with `execution_name[:80]`, and return the execution
ARN; a failing dispatch raises.  The outcome of the AWS call is the
`notify` oracle; the call made is returned as an event. -/
def trigger_step_functions (notify : Except String String) (state_machine_arn : String)
    (input_data : List (String × JVal)) (execution_name : String) :
    Except String String × List SfnEvent :=
  (notify, [SfnEvent.startExecution state_machine_arn (adjust_input_data input_data)
              (py_slice execution_name 80)])

/-- A statement or transaction command issued on the database cursor. -/
inductive DbEvent where
  | createTable (table : String) (cols : List String)
  | execInsert (table : String) (vals : List String)
  | execUpdate (table : String) (file : String) (rows : Nat) (err : Option String)
  | commit
  | rollback
  deriving DecidableEq

/-- `create_table_if_not_exists` (lines 65–95): clean the column names and
issue the idempotent `CREATE TABLE IF NOT EXISTS` statement; returns the
cleaned column definitions and the issued statement. -/
def create_table_if_not_exists (table_name : String) (columns : List String) :
    List String × DbEvent :=
  let column_definitions := columns.map clean_col
  (column_definitions, DbEvent.createTable table_name column_definitions)

/-- One iteration of the row loop of `insert_csv_data` (lines 115–138):
a row whose field count differs from the header's is skipped (`continue`);
otherwise the cells are cleaned, the file metadata is prepended and the
parameterized insert is attempted — `insertOk` is the store's verdict,
and a rejected row is skipped (`continue`, so the batch check is not
reached).  After a successful insert, when the running count is a
multiple of the batch size 100, the connection is committed. -/
def insert_row_step (insertOk : List String → Bool) (table_name : String)
    (clean_columns meta : List String) (acc : Nat × List DbEvent)
    (row : List String) : Nat × List DbEvent :=
  if row.length ≠ clean_columns.length then acc
  else
    let clean_row := row.map clean_cell
    let full_row := meta ++ clean_row
    if insertOk full_row then
      let row_count := acc.1 + 1
      let events := acc.2 ++ [DbEvent.execInsert table_name full_row]
      if row_count % 100 == 0 then (row_count, events ++ [DbEvent.commit])
      else (row_count, events)
    else acc

/-- `insert_csv_data` (lines 97–143): clean the column names, derive the
file name from the key, run the row loop and issue the final commit.
Returns the inserted row count and the trace of issued statements. -/
def insert_csv_data (insertOk : List String → Bool) (table_name : String)
    (columns : List String) (csv_rows : List (List String))
    (bucket_name object_key : String) : Nat × List DbEvent :=
  let clean_columns := columns.map clean_col
  let file_name := py_split_tail (Char.ofNat 47) object_key
  let meta := [file_name, bucket_name, object_key]
  let fin := csv_rows.foldl (insert_row_step insertOk table_name clean_columns meta)
    (0, ([] : List DbEvent))
  (fin.1, fin.2 ++ [DbEvent.commit])

/-- The error-message truncation of `update_processing_status`
(lines 176–178): a message longer than 1000 characters is cut to its
first 997 characters followed by `...`. -/
def truncate_error_message (error_message : String) : String :=
  if 1000 < error_message.length then py_slice error_message 997 ++ "..."
  else error_message

/-- `update_processing_status` (lines 172–199): issue the metadata
`UPDATE` keyed by file name — with the truncated error message when one
is present (Python truthiness: `None` and the empty string both select
the no-error statement) — then commit.  Any exception (`updateOk =
false`) is caught, logged and swallowed: nothing is raised. -/
def update_processing_status (updateOk : Bool) (table_name file_name : String)
    (rows_count : Nat) (error_message : Option String) : List DbEvent :=
  if updateOk then
    match error_message with
    | some m =>
      if m = "" then
        [DbEvent.execUpdate table_name file_name rows_count none, DbEvent.commit]
      else
        [DbEvent.execUpdate table_name file_name rows_count
            (some (truncate_error_message m)), DbEvent.commit]
    | none => [DbEvent.execUpdate table_name file_name rows_count none, DbEvent.commit]
  else []

/-- The outcome of fetching and parsing one S3 object: the parsed CSV
rows (header row first), a `csv.Error` raised while reading the header,
or any other exception from the fetch or decode. -/
inductive S3Fetch where
  | ok (rows : List (List String))
  | parseError (msg : String)
  | fetchError (msg : String)

/-- The credentials record returned by `get_rds_credentials`
(lines 31–38); `host` may be absent from the secret. -/
structure Credentials where
  username : String
  password : String
  host : Option String
  database : String
  port : String
  engine : String

/-- The external collaborators of the handler, as oracles: S3 content,
Secrets Manager, the RDS endpoint lookup, the connection attempt, the
store's per-row insert verdict, the status-update outcome and the Step
Functions dispatch outcome. -/
structure Env where
  s3 : String → String → S3Fetch
  secrets : String → Except String Credentials
  rds_endpoint : String → Except String String
  connect : Except String Unit
  insertOk : List String → Bool
  updateOk : Bool
  notify : Except String String

/-- An externally visible effect of processing one file. -/
inductive Effect where
  | s3Get (bucket key : String)
  | connectDb
  | db (e : DbEvent)
  | closeDb
  deriving DecidableEq

/-- The per-file result dict of `process_csv_file`: the three shapes
(`skipped`, `success`, `failed`) carry different keys; a key the dict
does not hold is `none`. -/
structure FileResult where
  status : String
  rows_inserted : Option Nat := none
  columns_processed : Option Nat := none
  error : Option String := none
  reason : Option String := none
  deriving DecidableEq

/-- `process_csv_file` (lines 201–268): validate the extension (a
non-CSV key returns `skipped` before any effect), fetch and parse the
CSV, connect to RDS (only after the header was read), ensure the table,
insert the rows, record the status, and return `success` with the row
and column counts.  A `csv.Error` at the header returns `failed` with a
`CSV parsing error:` detail (the connection does not exist yet, so no
error status is written); any other exception — fetch failure,
`StopIteration` on an empty object (Python's `str(StopIteration())` is
the empty string), or the failed connection attempt — returns `failed`
with a `Processing error:` detail.  The effect trace is returned
alongside; the `finally` block closes the connection when one was
opened. -/
def process_csv_file (env : Env) (bucket_name object_key table_name file_name : String) :
    FileResult × List Effect :=
  if ! py_endswith (py_lower object_key) ".csv" then
    ({ status := "skipped", reason := some "Not a CSV file" }, [])
  else
    match env.s3 bucket_name object_key with
    | S3Fetch.fetchError msg =>
        ({ status := "failed", error := some ("Processing error: " ++ msg) },
         [Effect.s3Get bucket_name object_key])
    | S3Fetch.parseError msg =>
        ({ status := "failed", error := some ("CSV parsing error: " ++ msg) },
         [Effect.s3Get bucket_name object_key])
    | S3Fetch.ok [] =>
        ({ status := "failed", error := some "Processing error: " },
         [Effect.s3Get bucket_name object_key])
    | S3Fetch.ok (columns :: data_rows) =>
        match env.connect with
        | Except.error msg =>
            ({ status := "failed", error := some ("Processing error: " ++ msg) },
             [Effect.s3Get bucket_name object_key, Effect.connectDb])
        | Except.ok _ =>
            let created := create_table_if_not_exists table_name columns
            let ins := insert_csv_data env.insertOk table_name columns data_rows
              bucket_name object_key
            let upd := update_processing_status env.updateOk table_name file_name
              ins.1 none
            ({ status := "success", rows_inserted := some ins.1,
               columns_processed := some columns.length },
             [Effect.s3Get bucket_name object_key, Effect.connectDb,
              Effect.db created.2] ++ ins.2.map Effect.db ++ upd.map Effect.db ++
              [Effect.closeDb])

/-- One entry of the handler's `results` list: the file metadata merged
with the per-file result dict and any Step Functions fields. -/
structure RecordResult where
  bucket : String
  key : String
  file_name : String
  status : String
  rows_inserted : Option Nat := none
  columns_processed : Option Nat := none
  error : Option String := none
  reason : Option String := none
  stepfunctions_execution_arn : Option String := none
  stepfunctions_error : Option String := none
  deriving DecidableEq

/-- Environment variables and invocation-scoped values of
`lambda_handler`: the secret ARN (absent ⇒ fatal), the database, table,
state machine and instance settings, the request id and the two
timestamp renderings the handler takes. -/
structure Config where
  rds_secret_arn : Option String
  database_name : String
  table_name : String
  state_machine_arn : String
  rds_instance_id : String
  request_id : String
  iso_timestamp : String
  compact_timestamp : String

/-- The Python truthiness test
`state_machine_arn and state_machine_arn.strip()` of line 334: the ARN
is non-empty and not whitespace-only. -/
def arn_nonblank (arn : String) : Bool :=
  (arn != "") && (py_strip arn != "")

/-- One iteration of the record loop of `lambda_handler` (lines
312–373): derive the file name, process the file, merge the result
entry, and — when the state machine ARN is non-blank and the file result
is `success` — build the input dict, derive the execution name and
attempt the Step Functions dispatch; a dispatch failure stores
`stepfunctions_error` and downgrades a `success` status to
`partial_success`.  Returns the result entry, the file-processing
effects and the dispatch events. -/
def handle_record (env : Env) (cfg : Config) (secret_arn : String)
    (record : String × String) : RecordResult × List Effect × List SfnEvent :=
  let bucket_name := record.1
  let object_key := record.2
  let file_name := py_split_tail (Char.ofNat 47) object_key
  let pr := process_csv_file env bucket_name object_key cfg.table_name file_name
  let fr := pr.1
  let base : RecordResult :=
    { bucket := bucket_name, key := object_key, file_name := file_name,
      status := fr.status, rows_inserted := fr.rows_inserted,
      columns_processed := fr.columns_processed, error := fr.error,
      reason := fr.reason }
  if arn_nonblank cfg.state_machine_arn && (fr.status == "success") then
    let input_data : List (String × JVal) :=
      [("bucket", JVal.str bucket_name), ("key", JVal.str object_key),
       ("file_name", JVal.str file_name), ("database", JVal.str cfg.database_name),
       ("table", JVal.str cfg.table_name),
       ("rows_processed", JVal.nat (fr.rows_inserted.getD 0)),
       ("columns_processed", JVal.nat (fr.columns_processed.getD 0)),
       ("status", JVal.str "success"), ("timestamp", JVal.str cfg.iso_timestamp),
       ("lambda_request_id", JVal.str cfg.request_id),
       ("rds_instance", JVal.str cfg.rds_instance_id),
       ("secret_arn", JVal.str secret_arn)]
    let execution_name :=
      "s3-upload-" ++ cfg.compact_timestamp ++ "-" ++ py_slice cfg.request_id 8
    let tr := trigger_step_functions env.notify cfg.state_machine_arn input_data
      execution_name
    match tr.1 with
    | Except.ok arn =>
        ({ base with stepfunctions_execution_arn := some arn }, pr.2, tr.2)
    | Except.error e =>
        let r := { base with stepfunctions_error := some e }
        ({ r with
            status := if r.status == "success" then "partial_success" else r.status },
         pr.2, tr.2)
  else (base, pr.2, [])

/-- The `summary` object of the handler response (lines 376–393). -/
structure Summary where
  total_files : Nat
  successful_files : Nat
  partial_success_files : Nat
  failed_files : Nat
  skipped_files : Nat
  total_rows_inserted : Nat
  stepfunctions_triggered : Nat
  deriving DecidableEq

/-- The handler response: `statusCode` and the content of the JSON body. -/
structure Response where
  statusCode : Nat
  summary : Summary
  results : List RecordResult
  deriving DecidableEq

/-- `lambda_handler` (lines 270–412): the configuration check, the
credential retrieval and the endpoint resolution each abort the whole
invocation when they fail (`Except.error`); then the record loop runs
sequentially and the aggregated response is returned with `statusCode`
200 unconditionally. -/
def lambda_handler (env : Env) (cfg : Config) (records : List (String × String)) :
    Except String Response :=
  match cfg.rds_secret_arn with
  | none => Except.error "RDS_SECRET_ARN environment variable is required"
  | some secret_arn =>
    match env.secrets secret_arn with
    | Except.error e => Except.error e
    | Except.ok credentials =>
      let host_result : Except String String :=
        match credentials.host with
        | some h => Except.ok h
        | none => env.rds_endpoint cfg.rds_instance_id
      match host_result with
      | Except.error e => Except.error e
      | Except.ok _ =>
        let results := records.map (fun r => (handle_record env cfg secret_arn r).1)
        Except.ok
          { statusCode := 200,
            summary :=
              { total_files := records.length,
                successful_files :=
                  (results.filter (fun r => r.status == "success")).length,
                partial_success_files :=
                  (results.filter (fun r => r.status == "partial_success")).length,
                failed_files :=
                  (results.filter (fun r => r.status == "failed")).length,
                skipped_files :=
                  (results.filter (fun r => r.status == "skipped")).length,
                total_rows_inserted :=
                  (results.map (fun r => r.rows_inserted.getD 0)).sum,
                stepfunctions_triggered :=
                  (results.filter
                    (fun r => r.stepfunctions_execution_arn.isSome)).length },
            results := results }

/-! ## Helper lemmas about the row loop -/

/-- The inserted-row count after one loop iteration: it grows by one
exactly when the row's field count matches and the store accepts the
cleaned row. -/
theorem insert_row_step_fst (insertOk : List String → Bool) (table_name : String)
    (clean_columns meta : List String) (acc : Nat × List DbEvent)
    (row : List String) :
    (insert_row_step insertOk table_name clean_columns meta acc row).1
      = if row.length = clean_columns.length ∧
            insertOk (meta ++ row.map clean_cell) = true
        then acc.1 + 1 else acc.1 := by
  unfold insert_row_step
  by_cases h : row.length = clean_columns.length
  · by_cases hio : insertOk (meta ++ row.map clean_cell) = true
    · by_cases hmod : (acc.1 + 1) % 100 = 0 <;> simp [h, hio, hmod]
    · simp [h, hio]
  · simp [h]

/-- With the store accepting every row, the loop counts exactly the rows
whose field count equals the cleaned header's. -/
theorem insert_fold_count (insertOk : List String → Bool) (table_name : String)
    (clean_columns meta : List String) (hins : ∀ r, insertOk r = true) :
    ∀ (rows : List (List String)) (acc : Nat × List DbEvent),
      (rows.foldl (insert_row_step insertOk table_name clean_columns meta) acc).1
        = acc.1 + (rows.filter (fun r => r.length == clean_columns.length)).length := by
  intro rows
  induction rows with
  | nil => intro acc; simp
  | cons r rs ih =>
    intro acc
    rw [List.foldl_cons, List.filter_cons, ih]
    rw [insert_row_step_fst]
    by_cases h : r.length = clean_columns.length
    · simp only [h, hins, and_self, if_true, beq_self_eq_true, List.length_cons]
      omega
    · have hb : (r.length == clean_columns.length) = false := by
        simpa using h
      simp [h, hb]

/-- The commit count after one loop iteration keeps the invariant
"commits so far = inserted rows so far divided by the batch size 100". -/
theorem insert_row_step_commit (insertOk : List String → Bool) (table_name : String)
    (clean_columns meta : List String) (acc : Nat × List DbEvent)
    (row : List String)
    (hc : acc.2.count DbEvent.commit = acc.1 / 100) :
    (insert_row_step insertOk table_name clean_columns meta acc row).2.count
        DbEvent.commit
      = (insert_row_step insertOk table_name clean_columns meta acc row).1 / 100 := by
  unfold insert_row_step
  by_cases h : row.length = clean_columns.length
  · by_cases hio : insertOk (meta ++ row.map clean_cell) = true
    · by_cases hmod : (acc.1 + 1) % 100 = 0
      · have hdvd : 100 ∣ acc.1 + 1 := Nat.dvd_of_mod_eq_zero hmod
        simp [h, hio, hmod, List.count_append, hc, Nat.succ_div, hdvd]
      · have hndvd : ¬ 100 ∣ acc.1 + 1 := by omega
        simp [h, hio, hmod, List.count_append, hc, Nat.succ_div, hndvd]
    · simp [h, hio, hc]
  · simp [h, hc]

/-- One loop iteration never issues a rollback. -/
theorem insert_row_step_no_rollback (insertOk : List String → Bool)
    (table_name : String) (clean_columns meta : List String)
    (acc : Nat × List DbEvent) (row : List String)
    (hr : DbEvent.rollback ∉ acc.2) :
    DbEvent.rollback ∉
      (insert_row_step insertOk table_name clean_columns meta acc row).2 := by
  unfold insert_row_step
  by_cases h : row.length = clean_columns.length
  · by_cases hio : insertOk (meta ++ row.map clean_cell) = true
    · by_cases hmod : (acc.1 + 1) % 100 = 0 <;> simp [h, hio, hmod, hr]
    · simp [h, hio, hr]
  · simp [h, hr]

/-- The row loop keeps the batch-commit invariant and never rolls back. -/
theorem insert_fold_events (insertOk : List String → Bool) (table_name : String)
    (clean_columns meta : List String) :
    ∀ (rows : List (List String)) (acc : Nat × List DbEvent),
      acc.2.count DbEvent.commit = acc.1 / 100 →
      DbEvent.rollback ∉ acc.2 →
      ((rows.foldl (insert_row_step insertOk table_name clean_columns meta) acc).2.count
            DbEvent.commit
          = (rows.foldl (insert_row_step insertOk table_name clean_columns meta) acc).1
              / 100
        ∧ DbEvent.rollback ∉
            (rows.foldl (insert_row_step insertOk table_name clean_columns meta)
              acc).2) := by
  intro rows
  induction rows with
  | nil => intro acc hc hr; exact ⟨hc, hr⟩
  | cons r rs ih =>
    intro acc hc hr
    rw [List.foldl_cons]
    exact ih _ (insert_row_step_commit insertOk table_name clean_columns meta acc r hc)
      (insert_row_step_no_rollback insertOk table_name clean_columns meta acc r hr)

/-! ## Claim theorems -/

/-- C1: for every CSV input, when the store accepts every bound row, the
row count returned by `insert_csv_data` equals the number of data rows
whose field count equals the header's field count. -/
theorem rows_inserted_eq_matching_count (insertOk : List String → Bool)
    (table_name : String) (columns : List String) (csv_rows : List (List String))
    (bucket_name object_key : String) (hins : ∀ r, insertOk r = true) :
    (insert_csv_data insertOk table_name columns csv_rows bucket_name object_key).1
      = (csv_rows.filter (fun r => r.length == columns.length)).length := by
  unfold insert_csv_data
  rw [insert_fold_count insertOk table_name (columns.map clean_col) _ hins]
  simp [List.length_map]

/-- C1 witness: header `id,name` with rows `[1,a]`, `[2,b,extra]` and
`[3,c]` inserts exactly 2 rows; the remaining 1 row has a mismatched
field count. -/
theorem rows_inserted_eq_matching_count_witness :
    (insert_csv_data (fun _ => true) "UploadedData" ["id", "name"]
        [["1", "a"], ["2", "b", "extra"], ["3", "c"]] "mybucket" "data/test.csv").1 = 2
      ∧ ([["1", "a"], ["2", "b", "extra"], ["3", "c"]].filter
          (fun r => r.length != 2)).length = 1 := by
  constructor
  · rw [rows_inserted_eq_matching_count (fun _ => true) "UploadedData" ["id", "name"]
      [["1", "a"], ["2", "b", "extra"], ["3", "c"]] "mybucket" "data/test.csv"
      (fun _ => rfl)]
    decide
  · decide

/-- C4: the statement trace of `insert_csv_data` holds one commit for
every full batch of 100 inserted rows plus the final commit that flushes
the remainder, it ends with that final commit, and it never contains a
rollback. -/
theorem insert_commit_batching (insertOk : List String → Bool) (table_name : String)
    (columns : List String) (csv_rows : List (List String))
    (bucket_name object_key : String) :
    ((insert_csv_data insertOk table_name columns csv_rows bucket_name
          object_key).2.count DbEvent.commit
        = (insert_csv_data insertOk table_name columns csv_rows bucket_name
            object_key).1 / 100 + 1)
      ∧ DbEvent.rollback ∉
          (insert_csv_data insertOk table_name columns csv_rows bucket_name
            object_key).2
      ∧ (insert_csv_data insertOk table_name columns csv_rows bucket_name
          object_key).2.getLast? = some DbEvent.commit := by
  simp only [insert_csv_data]
  have h := insert_fold_events insertOk table_name (columns.map clean_col)
    [py_split_tail (Char.ofNat 47) object_key, bucket_name, object_key]
    csv_rows (0, ([] : List DbEvent)) (by simp) (by simp)
  refine ⟨?_, ?_, ?_⟩
  · rw [List.count_append, h.1]
    have h1 : List.count DbEvent.commit [DbEvent.commit] = 1 := rfl
    omega
  · intro hmem
    rcases List.mem_append.mp hmem with h1 | h1
    · exact h.2 h1
    · simp at h1
  · simp [List.getLast?_concat]

/-- The length of a Python slice `s[:n]`. -/
theorem py_slice_length (s : String) (n : Nat) :
    (py_slice s n).length = min n s.length := by
  show (s.data.take n).length = min n s.data.length
  exact List.length_take _ _

/-- C7: the status update stores the truncated error message — at most
1000 characters; unchanged when the message has at most 1000 characters,
and cut to the first 997 characters plus `...` when longer. -/
theorem update_error_message_truncated (table_name file_name : String)
    (rows_count : Nat) (m : String) (hm : m ≠ "") :
    update_processing_status true table_name file_name rows_count (some m)
        = [DbEvent.execUpdate table_name file_name rows_count
            (some (truncate_error_message m)), DbEvent.commit]
      ∧ (truncate_error_message m).length ≤ 1000
      ∧ (m.length ≤ 1000 → truncate_error_message m = m)
      ∧ (1000 < m.length → truncate_error_message m = py_slice m 997 ++ "...") := by
  refine ⟨by simp [update_processing_status, hm], ?_, ?_, ?_⟩
  · unfold truncate_error_message
    by_cases h : 1000 < m.length
    · rw [if_pos h, String.length_append, py_slice_length]
      have h3 : ("..." : String).length = 3 := rfl
      omega
    · rw [if_neg h]; omega
  · intro hle
    unfold truncate_error_message
    rw [if_neg (by omega)]
  · intro hgt
    unfold truncate_error_message
    rw [if_pos hgt]

/-- C7 witness: the theorem applied to the message `boom`. -/
theorem update_error_message_truncated_witness :
    update_processing_status true "UploadedData" "data.csv" 7 (some "boom")
        = [DbEvent.execUpdate "UploadedData" "data.csv" 7
            (some (truncate_error_message "boom")), DbEvent.commit]
      ∧ (truncate_error_message "boom").length ≤ 1000
      ∧ ("boom".length ≤ 1000 → truncate_error_message "boom" = "boom")
      ∧ (1000 < "boom".length →
          truncate_error_message "boom" = py_slice "boom" 997 ++ "...") :=
  update_error_message_truncated "UploadedData" "data.csv" 7 "boom" (by decide)

/-- Serialized length of a one-entry JSON object. -/
theorem jsonLen_one (k : String) (v : JVal) :
    jsonLen [(k, v)] = k.length + jvalLen v + 6 := by
  simp [jsonLen]; omega

/-- Serialized length of a three-entry JSON object. -/
theorem jsonLen_three (k1 k2 k3 : String) (v1 v2 v3 : JVal) :
    jsonLen [(k1, v1), (k2, v2), (k3, v3)]
      = k1.length + jvalLen v1 + k2.length + jvalLen v2 + k3.length + jvalLen v3
          + 18 := by
  simp [jsonLen]; omega

/-- The serialized length of a string value. -/
theorem jvalLen_str (s : String) : jvalLen (JVal.str s) = s.length + 2 := rfl

/-- The serialized length of the value `true`. -/
theorem jvalLen_true : jvalLen (JVal.bool true) = 4 := rfl

/-- A Step Functions input whose serialization exceeds the 250 KB guard:
one field holding 262144 characters. -/
def oversize_payload : List (String × JVal) :=
  [("data", JVal.str (String.mk (List.replicate 262144 (Char.ofNat 120))))]

/-- The oversized payload written out. -/
theorem oversize_payload_eq : oversize_payload
    = [("data", JVal.str (String.mk (List.replicate 262144 (Char.ofNat 120))))] := rfl

/-- The length of the oversized field. -/
theorem oversize_field_length :
    (String.mk (List.replicate 262144 (Char.ofNat 120))).length = 262144 := by
  show (List.replicate 262144 (Char.ofNat 120)).length = 262144
  exact List.length_replicate _ _

/-- The serialized size of the oversized payload. -/
theorem oversize_payload_jsonLen : jsonLen oversize_payload = 262156 := by
  have hd : ("data" : String).length = 4 := rfl
  rw [oversize_payload_eq, jsonLen_one, hd, jvalLen, oversize_field_length]

/-- C2: on an input over the 250 KB guard, the size guard of
`trigger_step_functions` does not truncate anything — it keeps every
original field (the oversized field is still sent verbatim), appends the
`large_data_warning` and `original_size` entries, and the serialized
payload grows strictly larger instead of shrinking under the limit. -/
theorem oversize_input_not_truncated :
    250 * 1024 < jsonLen oversize_payload
      ∧ adjust_input_data oversize_payload
          = oversize_payload ++
            [("large_data_warning", JVal.bool true),
             ("original_size", JVal.nat (jsonLen oversize_payload))]
      ∧ ("data", JVal.str (String.mk (List.replicate 262144 (Char.ofNat 120))))
          ∈ adjust_input_data oversize_payload
      ∧ jsonLen oversize_payload < jsonLen (adjust_input_data oversize_payload) := by
  have hgt : 250 * 1024 < jsonLen oversize_payload := by
    rw [oversize_payload_jsonLen]; norm_num
  have hadj : adjust_input_data oversize_payload
      = oversize_payload ++
        [("large_data_warning", JVal.bool true),
         ("original_size", JVal.nat (jsonLen oversize_payload))] := by
    unfold adjust_input_data
    rw [if_pos hgt]
  have hw : ("large_data_warning" : String).length = 18 := rfl
  have ho : ("original_size" : String).length = 13 := rfl
  have hd : ("data" : String).length = 4 := rfl
  have hjn : jvalLen (JVal.nat 262156) = 6 := rfl
  have hbig : jvalLen (JVal.str (String.mk (List.replicate 262144 (Char.ofNat 120))))
      = 262146 := by
    rewrite [jvalLen_str, oversize_field_length]
    rfl
  have happ : oversize_payload ++
      [("large_data_warning", JVal.bool true), ("original_size", JVal.nat 262156)]
      = [("data", JVal.str (String.mk (List.replicate 262144 (Char.ofNat 120)))),
         ("large_data_warning", JVal.bool true),
         ("original_size", JVal.nat 262156)] := rfl
  have h2 : jsonLen (oversize_payload ++
      [("large_data_warning", JVal.bool true),
       ("original_size", JVal.nat (jsonLen oversize_payload))]) = 262209 := by
    rewrite [oversize_payload_jsonLen, happ, jsonLen_three, hbig, hd, hw, ho,
      jvalLen_true, hjn]
    rfl
  refine ⟨hgt, hadj, ?_, ?_⟩
  · rw [hadj, oversize_payload_eq]
    exact List.mem_cons_self _ _
  · rw [hadj, h2, oversize_payload_jsonLen]
    norm_num

/-- C6: a key without the `.csv` extension yields the `skipped` result
before any effect: no object read, no schema statement, no insert, no
status update. -/
theorem non_csv_skipped (env : Env)
    (bucket_name object_key table_name file_name : String)
    (h : py_endswith (py_lower object_key) ".csv" = false) :
    process_csv_file env bucket_name object_key table_name file_name
      = ({ status := "skipped", reason := some "Not a CSV file" }, []) := by
  simp [process_csv_file, h]

/-- A concrete credentials record with the host present in the secret. -/
def sample_credentials : Credentials :=
  { username := "admin", password := "pw", host := some "db.internal",
    database := "MyDatabase", port := "3306", engine := "mysql" }

/-- An environment with every collaborator healthy, serving one two-row
CSV object. -/
def sample_env : Env :=
  { s3 := fun _ _ => S3Fetch.ok [["id", "name"], ["1", "a"]],
    secrets := fun _ => Except.ok sample_credentials,
    rds_endpoint := fun _ => Except.ok "db.internal",
    connect := Except.ok (),
    insertOk := fun _ => true,
    updateOk := true,
    notify := Except.ok "arn:aws:states:us-east-1:123:execution:demo:run1" }

/-- C6 witness: a `.txt` key is skipped with an empty effect trace. -/
theorem non_csv_skipped_witness :
    process_csv_file sample_env "mybucket" "reports/notes.txt" "UploadedData"
        "notes.txt"
      = ({ status := "skipped", reason := some "Not a CSV file" }, []) :=
  non_csv_skipped sample_env "mybucket" "reports/notes.txt" "UploadedData"
    "notes.txt" (by decide)

/-- C8: the per-file result of `process_csv_file` is the same whether the
status update succeeds or raises — the exception is swallowed inside
`update_processing_status` and never escalates. -/
theorem status_update_failure_not_escalated (env : Env) (u₁ u₂ : Bool)
    (bucket_name object_key table_name file_name : String) :
    (process_csv_file { env with updateOk := u₁ } bucket_name object_key
        table_name file_name).1
      = (process_csv_file { env with updateOk := u₂ } bucket_name object_key
          table_name file_name).1 := by
  unfold process_csv_file
  dsimp only
  cases hcsv : py_endswith (py_lower object_key) ".csv"
  · simp [hcsv]
  · simp only [hcsv, Bool.not_true, Bool.false_eq_true, if_false]
    cases hs3 : env.s3 bucket_name object_key with
    | fetchError msg => rfl
    | parseError msg => rfl
    | ok rows =>
      cases rows with
      | nil => rfl
      | cons cols dr => cases hc : env.connect <;> rfl

/-- A configuration with every setting present and a blank state machine
ARN (so no dispatch is attempted). -/
def sample_cfg : Config :=
  { rds_secret_arn := some "arn:aws:secretsmanager:us-east-1:123:secret:rds",
    database_name := "MyDatabase", table_name := "UploadedData",
    state_machine_arn := "", rds_instance_id := "MyRDSDatabase",
    request_id := "req-abc12345", iso_timestamp := "2026-10-12T00:00:00",
    compact_timestamp := "20261012-000000" }

/-- The healthy environment with the connection attempt failing. -/
def conn_fail_env : Env :=
  { sample_env with connect := Except.error "Connection refused" }

/-- The shape of every successful handler response: status code 200 and
one result entry per record. -/
theorem lambda_handler_ok_shape (env : Env) (cfg : Config)
    (records : List (String × String)) (resp : Response)
    (h : lambda_handler env cfg records = Except.ok resp) :
    resp.statusCode = 200 ∧ resp.results.length = records.length := by
  unfold lambda_handler at h
  split at h
  · exact absurd h (by simp)
  · split at h
    · exact absurd h (by simp)
    · split at h
      · simp only [Except.ok.injEq] at h
        rw [← h]
        exact ⟨rfl, by simp⟩
      · dsimp only at h
        split at h
        · exact absurd h (by simp)
        · simp only [Except.ok.injEq] at h
          rw [← h]
          exact ⟨rfl, by simp⟩

/-- The per-file `failed` entry produced when the connection attempt is
refused. -/
def conn_fail_result : RecordResult :=
  { bucket := "mybucket", key := "data.csv", file_name := "data.csv",
    status := "failed", error := some "Processing error: Connection refused" }

/-- The summary of a one-file batch whose only file failed. -/
def conn_fail_summary : Summary :=
  { total_files := 1, successful_files := 0, partial_success_files := 0,
    failed_files := 1, skipped_files := 0, total_rows_inserted := 0,
    stepfunctions_triggered := 0 }

/-- C3 counterexample: when the connection attempt fails, the invocation
does not abort — the handler returns a 200 response that still holds one
per-file result, marked `failed`. -/
theorem conn_fail_still_reports_per_file :
    lambda_handler conn_fail_env sample_cfg [("mybucket", "data.csv")]
      = Except.ok { statusCode := 200, summary := conn_fail_summary,
                    results := [conn_fail_result] } := rfl

/-- C3 amended: when the store connection cannot be established (which
in this code is attempted per file, after the header is read), the
current file ends in a per-file `failed` result, the invocation
continues, and the aggregated response still holds one result per
record. -/
theorem conn_fail_per_file_failed (env : Env) (cfg : Config)
    (records : List (String × String)) (bucket key table file msg : String)
    (hconn : env.connect = Except.error msg)
    (hcsv : py_endswith (py_lower key) ".csv" = true) :
    (process_csv_file env bucket key table file).1.status = "failed"
      ∧ (lambda_handler env cfg records).map (fun resp => resp.results.length)
          = (lambda_handler env cfg records).map (fun _ => records.length) := by
  constructor
  · unfold process_csv_file
    rw [hcsv]
    cases hs3 : env.s3 bucket key with
    | fetchError m => rfl
    | parseError m => rfl
    | ok rows =>
      cases rows with
      | nil => rfl
      | cons cols dr =>
        rw [hconn]
        rfl
  · cases hl : lambda_handler env cfg records with
    | error e => rfl
    | ok resp =>
      simp only [Except.map]
      rw [(lambda_handler_ok_shape env cfg records resp hl).2]

/-- C3 witness: the amended statement at the concrete refused-connection
environment with one CSV record. -/
theorem conn_fail_per_file_failed_witness :
    (process_csv_file conn_fail_env "mybucket" "data.csv" "UploadedData"
        "data.csv").1.status = "failed"
      ∧ (lambda_handler conn_fail_env sample_cfg [("mybucket", "data.csv")]).map
            (fun resp => resp.results.length)
          = (lambda_handler conn_fail_env sample_cfg [("mybucket", "data.csv")]).map
              (fun _ => [(("mybucket" : String), ("data.csv" : String))].length) :=
  conn_fail_per_file_failed conn_fail_env sample_cfg [("mybucket", "data.csv")]
    "mybucket" "data.csv" "UploadedData" "data.csv" "Connection refused" rfl rfl

/-- C9: every invocation that gets past configuration, credential and
endpoint setup returns status code 200, whatever the per-file outcomes;
each file is reported only inside the body, one result per record. -/
theorem handler_returns_200 (env : Env) (cfg : Config)
    (records : List (String × String)) (resp : Response)
    (h : lambda_handler env cfg records = Except.ok resp) :
    resp.statusCode = 200 ∧ resp.results.length = records.length :=
  lambda_handler_ok_shape env cfg records resp h

/-- C9 witness: a batch whose two files end `skipped` and `failed` still
gets a 200 response with both results in the body. -/
theorem handler_returns_200_witness :
    (200 : Nat) = 200
      ∧ ([{ bucket := "b", key := "a.txt", file_name := "a.txt",
            status := "skipped", reason := some "Not a CSV file" },
          { bucket := "b", key := "data.csv", file_name := "data.csv",
            status := "failed",
            error := some "Processing error: Connection refused" }] :
          List RecordResult).length
        = ([(("b" : String), ("a.txt" : String)), ("b", "data.csv")]).length :=
  handler_returns_200 conn_fail_env sample_cfg [("b", "a.txt"), ("b", "data.csv")]
    { statusCode := 200,
      summary := { total_files := 2, successful_files := 0,
                   partial_success_files := 0, failed_files := 1,
                   skipped_files := 1, total_rows_inserted := 0,
                   stepfunctions_triggered := 0 },
      results := [{ bucket := "b", key := "a.txt", file_name := "a.txt",
                    status := "skipped", reason := some "Not a CSV file" },
                  { bucket := "b", key := "data.csv", file_name := "data.csv",
                    status := "failed",
                    error := some "Processing error: Connection refused" }] }
    rfl

/-- C5: a file whose ingest succeeded but whose Step Functions dispatch
raised lands in `partial_success` with its inserted row count kept
unchanged. -/
theorem notify_failure_partial_success (env : Env) (cfg : Config)
    (secret_arn bucket key msg : String) (n : Nat)
    (hst : (process_csv_file env bucket key cfg.table_name
        (py_split_tail (Char.ofNat 47) key)).1.status = "success")
    (hrows : (process_csv_file env bucket key cfg.table_name
        (py_split_tail (Char.ofNat 47) key)).1.rows_inserted = some n)
    (harn : arn_nonblank cfg.state_machine_arn = true)
    (hnot : env.notify = Except.error msg) :
    (handle_record env cfg secret_arn (bucket, key)).1.status = "partial_success"
      ∧ (handle_record env cfg secret_arn (bucket, key)).1.rows_inserted
          = some n := by
  unfold handle_record
  dsimp only
  rw [hst, hrows, harn, hnot]
  simp [trigger_step_functions]

/-- The healthy environment serving a 50-row CSV whose Step Functions
dispatch raises. -/
def fifty_env : Env :=
  { sample_env with
    s3 := fun _ _ => S3Fetch.ok (["id", "name"] :: List.replicate 50 ["1", "a"]),
    notify := Except.error "dispatch failed" }

/-- The configuration with a non-blank state machine ARN. -/
def sfn_cfg : Config :=
  { sample_cfg with
    state_machine_arn := "arn:aws:states:us-east-1:123:stateMachine:demo" }

set_option maxRecDepth 8000 in
/-- C5 witness: a 50-row ingest with a raising notifier ends in
`partial_success` with `rows_inserted = 50`. -/
theorem notify_failure_partial_success_witness :
    (handle_record fifty_env sfn_cfg "arn:sec" ("mybucket", "data.csv")).1.status
        = "partial_success"
      ∧ (handle_record fifty_env sfn_cfg "arn:sec"
          ("mybucket", "data.csv")).1.rows_inserted = some 50 :=
  notify_failure_partial_success fifty_env sfn_cfg "arn:sec" "mybucket" "data.csv"
    "dispatch failed" 50 rfl rfl rfl rfl

/-- C10: the record loop makes the `start_execution` call for a file
exactly when the state machine ARN is non-blank and the file's result is
`success`; a `failed`, `skipped` or otherwise non-`success` file never
triggers a dispatch. -/
theorem notify_only_on_success (env : Env) (cfg : Config)
    (secret_arn bucket key : String) :
    (handle_record env cfg secret_arn (bucket, key)).2.2 ≠ []
      ↔ (arn_nonblank cfg.state_machine_arn = true
          ∧ (process_csv_file env bucket key cfg.table_name
              (py_split_tail (Char.ofNat 47) key)).1.status = "success") := by
  unfold handle_record
  dsimp only
  cases hcond : arn_nonblank cfg.state_machine_arn
      && ((process_csv_file env bucket key cfg.table_name
        (py_split_tail (Char.ofNat 47) key)).1.status == "success") with
  | false =>
    rw [if_neg Bool.false_ne_true]
    constructor
    · intro hne
      exact absurd rfl hne
    · rintro ⟨h1, h2⟩
      rw [h1, h2] at hcond
      simp at hcond
  | true =>
    rw [if_pos rfl]
    have hc2 := hcond
    rw [Bool.and_eq_true] at hc2
    obtain ⟨h1, h2⟩ := hc2
    rw [beq_iff_eq] at h2
    cases hn : env.notify <;> simp [trigger_step_functions, h1, h2]
